import Mathlib

/-!
Shallow embedding of the SatsPay conversational-wallet bot (Python sources
under `src/`) in Lean 4, together with theorems settling the frozen claims
about its OTP authority, webhook handlers, registration flow, intent
classifier and conversation dispatcher.

Conventions of the embedding:
* `datetime` values are modelled as `Nat` timestamps; `datetime.utcnow()`
  becomes an explicit `now : Nat` argument.
* SQLAlchemy rows become Lean structures; a table becomes a `List` of rows;
  `row.save()` becomes an explicit functional update of that list.
* Randomly generated data (OTP codes, fresh row ids, reference numbers) and
  external-gateway responses (Twilio, Bitnob) are passed in as explicit
  parameters, mirroring the values the Python code obtains at run time.
* Python `float` amounts are embedded as `Rat`; no claim settled here
  depends on IEEE-754 rounding of amounts.
-/

namespace SatsPay

/-! ## Enumerations (src/models/user.py) -/

inductive UserStatus where
  | pending
  | active
  | suspended
  | blocked
  deriving Repr, DecidableEq

inductive TransactionStatus where
  | pending
  | processing
  | completed
  | failed
  | cancelled
  deriving Repr, DecidableEq

inductive TransactionType where
  | send
  | receive
  | buy
  | sell
  deriving Repr, DecidableEq

/-! ## OTP rows (class OTP in src/models/user.py) -/

/-- One row of the `otps` table.  `expiresAt` and `createdAt` are `Nat`
timestamps; `createdAt` drives the `order_by(OTP.created_at.desc())`
selection in `OTPService.verify_otp`. -/
structure OTPRec where
  otpId : Nat
  userId : Nat
  code : String
  purpose : String
  isUsed : Bool
  attempts : Nat
  maxAttempts : Nat
  expiresAt : Nat
  transactionId : Option Nat
  createdAt : Nat
  deriving Repr, DecidableEq

namespace OTPRec

/-- Model of `OTP.is_expired`: `datetime.utcnow() > self.expires_at`. -/
def is_expired (now : Nat) (o : OTPRec) : Bool :=
  decide (now > o.expiresAt)

/-- Model of `OTP.is_valid`: not used, not expired, attempts below the cap. -/
def is_valid (now : Nat) (o : OTPRec) : Bool :=
  !o.isUsed && !(o.is_expired now) && decide (o.attempts < o.maxAttempts)

/-- Model of `OTP.verify(code)`: increments `attempts`, then checks `is_valid` on the
incremented row; on a code match marks the row used.  Returns the Boolean
result together with the updated row. -/
def verify (now : Nat) (o : OTPRec) (code : String) : Bool × OTPRec :=
  let o1 := { o with attempts := o.attempts + 1 }
  if !(o1.is_valid now) then
    (false, o1)
  else if o1.code = code then
    (true, { o1 with isUsed := true })
  else
    (false, o1)

end OTPRec

/-! ## User rows (class User in src/models/user.py)

`session_data` is a JSON blob in Python; the conversation handlers only ever
read the `transaction_id` key out of it, so the embedding keeps the stored
state tag and that key. -/

/-- Payload written by `create_session_data` (src/utils/helpers.py); the
handlers read back only `transaction_id` via `parse_session_data`. -/
structure SessionData where
  state : String
  transactionId : Option Nat
  deriving Repr, DecidableEq

/-- One row of the `users` table. -/
structure UserRec where
  userId : Nat
  phoneNumber : String
  fullName : Option String
  email : Option String
  status : UserStatus
  isKycCompleted : Bool
  bitnobCustomerId : Option String
  bitnobWalletId : Option String
  bitcoinAddress : Option String
  failedOtpAttempts : Nat
  lastFailedOtp : Option Nat
  isLocked : Bool
  lockedUntil : Option Nat
  sessionState : Option String
  sessionData : Option SessionData
  lastActivity : Nat
  deriving Repr, DecidableEq

namespace UserRec

/-- Model of `User.lock_account(duration_minutes=30)`. -/
def lock_account (now : Nat) (durationMinutes : Nat) (u : UserRec) : UserRec :=
  { u with isLocked := true, lockedUntil := some (now + durationMinutes * 60) }

/-- Model of `User.increment_failed_otp`: bumps the global failed counter and locks
the account for 30 minutes once it reaches 3. -/
def increment_failed_otp (now : Nat) (u : UserRec) : UserRec :=
  let u1 := { u with failedOtpAttempts := u.failedOtpAttempts + 1,
                     lastFailedOtp := some now }
  if u1.failedOtpAttempts ≥ 3 then u1.lock_account now 30 else u1

/-- Model of `User.reset_failed_otp`. -/
def reset_failed_otp (u : UserRec) : UserRec :=
  { u with failedOtpAttempts := 0, lastFailedOtp := none }

/-- Model of `User.update_session(state, data)`. -/
def update_session (now : Nat) (state : String) (data : Option SessionData)
    (u : UserRec) : UserRec :=
  { u with sessionState := some state, sessionData := data, lastActivity := now }

/-- Model of `User.clear_session`. -/
def clear_session (u : UserRec) : UserRec :=
  { u with sessionState := none, sessionData := none }

end UserRec

/-! ## OTP service (src/services/otp_service.py) -/

/-- Replace every row whose `otpId` matches (`otp.save()` after mutating a
row fetched from the table). -/
def updateOtp (db : List OTPRec) (id : Nat) (o' : OTPRec) : List OTPRec :=
  db.map (fun o => if o.otpId = id then o' else o)

/-- Model of `OTP.query.filter_by(user_id=.., purpose=.., is_used=False)
.order_by(OTP.created_at.desc()).first()`: the scan step keeping the row
with the strictly larger `createdAt`. -/
def newerOf (acc : Option OTPRec) (o : OTPRec) : Option OTPRec :=
  match acc with
  | none => some o
  | some b => if o.createdAt > b.createdAt then some o else some b

/-- The unused row of that user and purpose with the largest `createdAt`
(ties broken towards the earlier row in list order; the SQL order of equal
keys is unspecified). -/
def selectLatestUnused (db : List OTPRec) (uid : Nat) (purpose : String) :
    Option OTPRec :=
  (db.filter fun o => o.userId = uid && o.purpose = purpose && !o.isUsed).foldl
    newerOf none

/-- Configuration of `OTPService.__init__`. -/
structure OTPServiceCfg where
  expiryMinutes : Nat
  maxAttempts : Nat
  deriving Repr, DecidableEq

/-- Model of `OTPService.create_otp(user, purpose, transaction_id)`: marks every
unused OTP of the same `(user, purpose)` pair as used, then appends a fresh
row.  The randomly generated code and the fresh row identifiers are passed
in (`code`, `newId`, `createdAt`). -/
def create_otp (cfg : OTPServiceCfg) (now : Nat) (db : List OTPRec)
    (u : UserRec) (purpose : String) (transactionId : Option Nat)
    (code : String) (newId createdAt : Nat) : List OTPRec :=
  let db1 := db.map fun o =>
    if o.userId = u.userId && o.purpose = purpose && !o.isUsed then
      { o with isUsed := true }
    else o
  db1 ++ [{ otpId := newId
            userId := u.userId
            code := code
            purpose := purpose
            isUsed := false
            attempts := 0
            maxAttempts := cfg.maxAttempts
            expiresAt := now + cfg.expiryMinutes * 60
            transactionId := transactionId
            createdAt := createdAt }]

/-- Result of `OTPService.verify_otp`: the `(ok, reason)` pair it returns
plus the updated OTP table and user row. -/
structure VerifyOtpResult where
  ok : Bool
  reason : Option String
  db : List OTPRec
  user : UserRec
  deriving Repr, DecidableEq

/-- Model of `OTPService.verify_otp(user, code, purpose)`.  Selects the most recent
unused OTP for the purpose; returns early (without touching any row) on
no-OTP, expiry, or an already-exhausted attempt counter; otherwise delegates
to `OTP.verify`, which increments the row's counter, and updates the user's
global failed-OTP counter accordingly. -/
def verify_otp (now : Nat) (db : List OTPRec) (u : UserRec)
    (code : String) (purpose : String) : VerifyOtpResult :=
  match selectLatestUnused db u.userId purpose with
  | none => ⟨false, some "No valid OTP found", db, u⟩
  | some otp =>
    if otp.is_expired now then
      ⟨false, some "OTP has expired", db, u⟩
    else if otp.attempts ≥ otp.maxAttempts then
      ⟨false, some "Maximum attempts exceeded", db, u⟩
    else
      let r := otp.verify now code
      let db1 := updateOtp db otp.otpId r.2
      if r.1 then
        ⟨true, none, db1, u.reset_failed_otp⟩
      else
        let u1 := u.increment_failed_otp now
        let remaining := r.2.maxAttempts - r.2.attempts
        if remaining > 0 then
          ⟨false, some ("Invalid OTP. " ++ toString remaining ++
            " attempts remaining"), db1, u1⟩
        else
          ⟨false, some "Invalid OTP. No attempts remaining", db1, u1⟩

/-! ## String helpers (src/utils/helpers.py, src/utils/validators.py)

Python regular expressions over the (ASCII) message alphabet are embedded as
executable matchers on `List Char`.  Each matcher is written in
continuation-passing style: a combinator consumes part of the character
list and hands the rest to the continuation `k`; `re.search` is existential
over start positions (`pSearch`), `^`-anchored patterns start at position 0,
and a trailing `$` is the continuation `pEnd`.  Python's `.` does not match
a newline (`dotStar`), while `\s` does (`isWs`). -/

/-- Python `\s` (ASCII): space, tab, newline, carriage return, vertical tab,
form feed. -/
def isWs (c : Char) : Bool :=
  c = ' ' || c = '\t' || c = '\n' || c = '\r' ||
  c = Char.ofNat 11 || c = Char.ofNat 12

/-- Python `\w` (ASCII): letters, digits, underscore. -/
def isWordChar (c : Char) : Bool :=
  ('a' ≤ c && c ≤ 'z') || ('A' ≤ c && c ≤ 'Z') ||
  ('0' ≤ c && c ≤ '9') || c = '_'

/-- ASCII letter (Python `str.isalpha` restricted to the ASCII messages the
bot handles). -/
def isAlphaChar (c : Char) : Bool :=
  ('a' ≤ c && c ≤ 'z') || ('A' ≤ c && c ≤ 'Z')

/-- ASCII digit. -/
def isDigitChar (c : Char) : Bool :=
  '0' ≤ c && c ≤ '9'

/-- Drop a literal prefix, returning the remainder when it is present. -/
def stripPre : List Char → List Char → Option (List Char)
  | s, [] => some s
  | [], _ :: _ => none
  | c :: s, p :: ps => if c = p then stripPre s ps else none

/-- Literal pattern piece followed by continuation `k`. -/
def pLit (pat : String) (k : List Char → Bool) (s : List Char) : Bool :=
  match stripPre s pat.toList with
  | some r => k r
  | none => false

/-- Alternation of literals `(a1|a2|...)` followed by continuation `k`. -/
def pAlt (alts : List String) (k : List Char → Bool) (s : List Char) : Bool :=
  alts.any fun a => pLit a k s

/-- Model of `\s*` followed by continuation `k` (full backtracking). -/
def wsStar (k : List Char → Bool) : List Char → Bool
  | [] => k []
  | c :: rest => k (c :: rest) || (isWs c && wsStar k rest)

/-- Model of `\s+` followed by continuation `k`. -/
def pWsPlus (k : List Char → Bool) : List Char → Bool
  | [] => false
  | c :: rest => isWs c && wsStar k rest

/-- Model of `.*` followed by continuation `k`; Python `.` does not match `\n`. -/
def dotStar (k : List Char → Bool) : List Char → Bool
  | [] => k []
  | c :: rest => k (c :: rest) || (c ≠ '\n' && dotStar k rest)

/-- Model of `re.search`: try the pattern at every start position. -/
def pSearch (k : List Char → Bool) : List Char → Bool
  | [] => k []
  | c :: rest => k (c :: rest) || pSearch k rest

/-- End-of-input continuation (`$`). -/
def pEnd (s : List Char) : Bool := s.isEmpty

/-- Continuation accepting anything (pattern has no trailing anchor). -/
def pAny (_ : List Char) : Bool := true

/-- Model of `^(a1|a2|...)$`: the whole input equals one of the alternatives. -/
def exactAlt (s : List Char) (alts : List String) : Bool :=
  alts.any fun a => s = a.toList

/-- Python `str.split()` with no argument: split on whitespace runs,
discarding empty words. -/
def splitWs (s : List Char) : List (List Char) :=
  (s.splitOnP isWs).filter fun w => !w.isEmpty

/-- Python `str.strip()` (ASCII whitespace). -/
def trimWs (s : List Char) : List Char :=
  ((s.dropWhile isWs).reverse.dropWhile isWs).reverse

/-- Python `str.lower()` on ASCII letters. -/
def lowerChar (c : Char) : Char :=
  if 'A' ≤ c && c ≤ 'Z' then Char.ofNat (c.toNat + 32) else c

/-- Model of `normalize_text` (src/utils/helpers.py): trim surrounding whitespace and
lower-case; the empty message stays empty. -/
def normalize_text (message : String) : List Char :=
  trimWs (message.toList.map lowerChar)

/-- Does the literal `pat` occur anywhere in `s`? -/
def containsSeq (pat : List Char) (s : List Char) : Bool :=
  pSearch (fun t => (stripPre t pat).isSome) s

/-! ### Validators (src/utils/validators.py) -/

/-- Model of `UserValidator.validate_full_name`: returns the stripped name when it is
2 to 100 characters of letters, whitespace, hyphens and apostrophes, with at
least one letter and at least two whitespace-separated parts. -/
def validate_full_name (name : String) : Option (List Char) :=
  let n := trimWs name.toList
  if n.length < 2 then none
  else if n.length > 100 then none
  else if !(n.all fun c =>
      isAlphaChar c || isWs c || c = '-' || c = Char.ofNat 39) then none
  else if !(n.any isAlphaChar) then none
  else if (splitWs n).length < 2 then none
  else some n

/-- Matcher for the email regex
`[a-zA-Z0-9._%+-]+@[a-zA-Z0-9.-]+\.[a-zA-Z]{2,}` anchored on both sides:
exactly one `@`; a non-empty local part over its character class; a domain
whose part after the last dot is alphabetic of length at least 2 and whose
part before it is non-empty over `[a-zA-Z0-9.-]`. -/
def matchEmailShape (e : List Char) : Bool :=
  let isLocalChar := fun (c : Char) =>
    isAlphaChar c || isDigitChar c || c = '.' || c = '_' || c = '%' ||
    c = '+' || c = '-'
  let isDomainChar := fun (c : Char) =>
    isAlphaChar c || isDigitChar c || c = '.' || c = '-'
  match e.splitOnP (· = '@') with
  | [l, r] =>
    let tld := (r.reverse.takeWhile (· ≠ '.')).reverse
    let dom := r.take (r.length - tld.length - 1)
    r.any (· = '.') &&
    !l.isEmpty && l.all isLocalChar &&
    !dom.isEmpty && dom.all isDomainChar &&
    decide (tld.length ≥ 2) && tld.all isAlphaChar
  | _ => false

/-- Model of `UserValidator.validate_email`: strips and lower-cases, matches the email
regex, bounds the length, and rejects `..` and leading/trailing dots. -/
def validate_email (email : String) : Option (List Char) :=
  let e := trimWs (email.toList.map lowerChar)
  if !matchEmailShape e then none
  else if e.length > 254 then none
  else if containsSeq ['.', '.'] e || e.head? = some '.' ||
      e.getLast? = some '.' then none
  else some e

/-- Model of `OTPValidator.validate_otp_code`: the stripped code must be exactly six
digits. -/
def validate_otp_code (code : String) : Option (List Char) :=
  let c := trimWs code.toList
  if c.length = 6 && c.all isDigitChar then some c else none

/-! ### Intent classifier (`detect_message_intent` in src/utils/helpers.py)

Every regex of the Python function is transcribed into an executable
matcher over the normalized message.  The pattern groups are evaluated in
the source order: confirm, cancel, greeting, send, balance, history,
address, help, six-digit OTP, name heuristic, email shape, unknown. -/

/-- Confirm patterns: `^(yes|y|ok|okay|confirm|sure|yep|yeah|yup|si|oui)$`,
`^(create|start|begin)\s+(account|wallet|bitcoin|btc)`,
`^(i\s+want|want\s+to|please)\s+(create|start|begin)`. -/
def confirmMatch (s : List Char) : Bool :=
  exactAlt s ["yes", "y", "ok", "okay", "confirm", "sure", "yep", "yeah",
    "yup", "si", "oui"] ||
  pAlt ["create", "start", "begin"]
    (pWsPlus (pAlt ["account", "wallet", "bitcoin", "btc"] pAny)) s ||
  (let g2 := pWsPlus (pAlt ["create", "start", "begin"] pAny)
   pLit "i" (pWsPlus (pLit "want" g2)) s ||
   pLit "want" (pWsPlus (pLit "to" g2)) s ||
   pLit "please" g2 s)

/-- Cancel pattern: `^(no|n|nope|cancel|stop|exit|quit|abort)$`. -/
def cancelMatch (s : List Char) : Bool :=
  exactAlt s ["no", "n", "nope", "cancel", "stop", "exit", "quit", "abort"]

/-- Greeting patterns:
`^(hi|hello|hey|start|begin|good\s+(morning|afternoon|evening))$` and
`^\w*(hi|hello|hey)\w*$`. -/
def greetingMatch (s : List Char) : Bool :=
  exactAlt s ["hi", "hello", "hey", "start", "begin"] ||
  pLit "good"
    (pWsPlus fun r => exactAlt r ["morning", "afternoon", "evening"]) s ||
  (s.all isWordChar &&
    pSearch (pAlt ["hi", "hello", "hey"] pAny) s)

/-- Send patterns: `(send|transfer|pay|give)\s+.*\s*(btc|bitcoin)`,
`(send|transfer|pay|give)\s+[\d.]+`,
`i\s+(want\s+to\s+|need\s+to\s+)?(send|transfer|pay)`. -/
def sendMatch (s : List Char) : Bool :=
  pSearch (pAlt ["send", "transfer", "pay", "give"]
    (pWsPlus (dotStar (wsStar (pAlt ["btc", "bitcoin"] pAny))))) s ||
  pSearch (pAlt ["send", "transfer", "pay", "give"]
    (pWsPlus fun r =>
      match r with
      | c :: _ => isDigitChar c || c = '.'
      | [] => false)) s ||
  pSearch (pLit "i" (pWsPlus fun r =>
    (let verbs := pAlt ["send", "transfer", "pay"] pAny
     pLit "want" (pWsPlus (pLit "to" (pWsPlus verbs))) r ||
     pLit "need" (pWsPlus (pLit "to" (pWsPlus verbs))) r ||
     verbs r))) s

/-- Balance patterns: `^(balance|bal|money|funds|wallet)$`,
`(check|show|what.*is|how.*much).*balance`,
`(my|current|account)\s+(balance|money|funds)`,
`how\s+much\s+(do\s+i\s+have|money|bitcoin|btc)`,
`(what.*balance|balance.*have)`. -/
def balanceMatch (s : List Char) : Bool :=
  exactAlt s ["balance", "bal", "money", "funds", "wallet"] ||
  pSearch (fun t =>
    let cont := dotStar (pLit "balance" pAny)
    pLit "check" cont t || pLit "show" cont t ||
    pLit "what" (dotStar (pLit "is" cont)) t ||
    pLit "how" (dotStar (pLit "much" cont)) t) s ||
  pSearch (pAlt ["my", "current", "account"]
    (pWsPlus (pAlt ["balance", "money", "funds"] pAny))) s ||
  pSearch (pLit "how" (pWsPlus (pLit "much" (pWsPlus fun r =>
    pLit "do" (pWsPlus (pLit "i" (pWsPlus (pLit "have" pAny)))) r ||
    pAlt ["money", "bitcoin", "btc"] pAny r)))) s ||
  pSearch (pLit "what" (dotStar (pLit "balance" pAny))) s ||
  pSearch (pLit "balance" (dotStar (pLit "have" pAny))) s

/-- History patterns: `^(history|transactions|activity|statement)$`,
`(show|view|check|get).*history`,
`(my|recent|past)\s+(transactions|history|activity)`,
`transaction\s+(history|list)`. -/
def historyMatch (s : List Char) : Bool :=
  exactAlt s ["history", "transactions", "activity", "statement"] ||
  pSearch (pAlt ["show", "view", "check", "get"]
    (dotStar (pLit "history" pAny))) s ||
  pSearch (pAlt ["my", "recent", "past"]
    (pWsPlus (pAlt ["transactions", "history", "activity"] pAny))) s ||
  pSearch (pLit "transaction" (pWsPlus (pAlt ["history", "list"] pAny))) s

/-- Address patterns: `^(address|receive|deposit)$`,
`(my|bitcoin|btc|wallet)\s+(address|id)`,
`(receive|get)\s+(bitcoin|btc|money)`, `(create|make|generate).*wallet`,
`how\s+to\s+receive`, `where.*send.*me`. -/
def addressMatch (s : List Char) : Bool :=
  exactAlt s ["address", "receive", "deposit"] ||
  pSearch (pAlt ["my", "bitcoin", "btc", "wallet"]
    (pWsPlus (pAlt ["address", "id"] pAny))) s ||
  pSearch (pAlt ["receive", "get"]
    (pWsPlus (pAlt ["bitcoin", "btc", "money"] pAny))) s ||
  pSearch (pAlt ["create", "make", "generate"]
    (dotStar (pLit "wallet" pAny))) s ||
  pSearch (pLit "how" (pWsPlus (pLit "to" (pWsPlus (pLit "receive" pAny))))) s ||
  pSearch (pLit "where" (dotStar (pLit "send" (dotStar (pLit "me" pAny))))) s

/-- Help patterns: `^(help|support|assist|info|information|\?)$`,
`(need|want)\s+(help|support|assistance)`, `(how\s+do\s+i|what\s+can)`,
`commands?`. -/
def helpMatch (s : List Char) : Bool :=
  exactAlt s ["help", "support", "assist", "info", "information", "?"] ||
  pSearch (pAlt ["need", "want"]
    (pWsPlus (pAlt ["help", "support", "assistance"] pAny))) s ||
  pSearch (fun t =>
    pLit "how" (pWsPlus (pLit "do" (pWsPlus (pLit "i" pAny)))) t ||
    pLit "what" (pWsPlus (pLit "can" pAny)) t) s ||
  pSearch (pLit "command" pAny) s

/-- Model of `re.match(r'^\d{6}$', normalized)`. -/
def otpShape (s : List Char) : Bool :=
  s.length = 6 && s.all isDigitChar

/-- Name heuristic: at least two whitespace-separated words, each entirely
alphabetic. -/
def nameShape (s : List Char) : Bool :=
  let words := splitWs s
  words.length ≥ 2 && words.all fun w => w.all isAlphaChar

/-- Model of `detect_message_intent` (src/utils/helpers.py): normalizes the message
and returns the first matching tag in the fixed source order. -/
def detect_message_intent (message : String) : String :=
  let s := normalize_text message
  if confirmMatch s then "confirm"
  else if cancelMatch s then "cancel"
  else if greetingMatch s then "greeting"
  else if sendMatch s then "send"
  else if balanceMatch s then "balance"
  else if historyMatch s then "history"
  else if addressMatch s then "address"
  else if helpMatch s then "help"
  else if otpShape s then "otp"
  else if nameShape s then "name_input"
  else if matchEmailShape s then "email_input"
  else "unknown"

/-! ## Transaction rows (class Transaction in src/models/user.py) -/

/-- One row of the `transactions` table.  Python `float`/`Numeric` amounts
are embedded as `Rat`. -/
structure TxRec where
  txId : Nat
  userId : Nat
  txType : TransactionType
  amount : Rat
  recipientAddress : Option String
  status : TransactionStatus
  bitnobTransactionId : Option String
  blockchainHash : Option String
  referenceNumber : String
  description : Option String
  fee : Option Rat
  completedAt : Option Nat
  deriving Repr, DecidableEq

/-- Python truthiness of an optional string (`if blockchain_hash:`): present
and non-empty. -/
def strTruthy : Option String → Bool
  | none => false
  | some s => !s.isEmpty

namespace TxRec

/-- Model of `Transaction.mark_completed(blockchain_hash)`: unconditionally sets
`COMPLETED` and the completion time; overwrites the hash only when a truthy
one is supplied. -/
def mark_completed (now : Nat) (hash : Option String) (t : TxRec) : TxRec :=
  let t1 := { t with status := TransactionStatus.completed,
                     completedAt := some now }
  if strTruthy hash then { t1 with blockchainHash := hash } else t1

/-- Model of `Transaction.mark_failed(reason)`: unconditionally sets `FAILED` and,
for a truthy reason, appends it to the description. -/
def mark_failed (reason : Option String) (t : TxRec) : TxRec :=
  let t1 := { t with status := TransactionStatus.failed }
  match reason with
  | some r =>
    if r.isEmpty then t1
    else
      let d := (t.description.getD "") ++ "\nFailure reason: " ++ r
      { t1 with description := some d }
  | none => t1

end TxRec

/-- Replace every transaction row whose `txId` matches
(`transaction.save()`). -/
def updateTx (txs : List TxRec) (id : Nat) (t' : TxRec) : List TxRec :=
  txs.map fun t => if t.txId = id then t' else t

/-! ## Bitnob webhook handlers (src/handlers/transaction.py) -/

/-- Model of `_handle_transaction_completed_webhook`: finds the transaction whose
`bitnob_transaction_id` equals the event's `id` (`data.get('id')`, possibly
absent) and unconditionally applies `mark_completed` to it.  There is no
event-id dedup and no check of the current status. -/
def handleTransactionCompletedWebhook (now : Nat) (txs : List TxRec)
    (dataId : Option String) (dataHash : Option String) : List TxRec :=
  match txs.find? (fun t => t.bitnobTransactionId = dataId) with
  | some t => updateTx txs t.txId (t.mark_completed now dataHash)
  | none => txs

/-- Model of `_handle_transaction_failed_webhook`: finds the transaction by provider
id and unconditionally applies `mark_failed` with
`data.get('failureReason', 'Transaction failed')`. -/
def handleTransactionFailedWebhook (txs : List TxRec)
    (dataId : Option String) (failureReason : Option String) : List TxRec :=
  match txs.find? (fun t => t.bitnobTransactionId = dataId) with
  | some t =>
    updateTx txs t.txId (t.mark_failed (some (failureReason.getD "Transaction failed")))
  | none => txs

/-- Model of `_handle_wallet_credited_webhook`: finds the user owning the credited
wallet and, for a positive amount, inserts a fresh `COMPLETED`
receive-transaction row (reference and row id freshly generated, passed in
as `ref`/`newTxId`).  Nothing deduplicates a re-delivered event. -/
def handleWalletCreditedWebhook (users : List UserRec) (txs : List TxRec)
    (walletId : Option String) (amount : Rat) (txHash : Option String)
    (newTxId : Nat) (ref : String) : List TxRec :=
  match users.find? (fun u => u.bitnobWalletId = walletId) with
  | some u =>
    if amount > 0 then
      txs ++ [{ txId := newTxId
                userId := u.userId
                txType := TransactionType.receive
                amount := amount
                recipientAddress := none
                status := TransactionStatus.completed
                bitnobTransactionId := none
                blockchainHash := txHash
                referenceNumber := ref
                description := none
                fee := none
                completedAt := none }]
    else txs
  | none => txs

/-! ## Registration (src/handlers/commands.py, src/handlers/registration.py,
src/services/bitnob_service.py) -/

/-- Result dictionary of `create_bitnob_account` (src/services/bitnob_service.py):
customer id, company wallet id, generated receive address (and its id).  A
`None` overall result models every provider-failure path of that helper. -/
structure AccountData where
  customerId : String
  walletId : String
  bitcoinAddress : String
  addressId : String
  deriving Repr, DecidableEq

/-- External inputs of one handler invocation: the clock, OTP-service
configuration, freshly generated values, and gateway responses. -/
structure Env where
  now : Nat
  cfg : OTPServiceCfg
  genOtpCode : String
  newOtpId : Nat
  newOtpCreatedAt : Nat
  twilioSendOk : Bool
  btcSendError : Bool
  btcSendMsg : Option String
  btcSendTxId : Option String
  accountData : Option AccountData
  deriving Repr, DecidableEq

/-- Model of `create_user(phone_number)` (src/models/user.py) with the column
defaults of `User`. -/
def createUser (uid : Nat) (now : Nat) (phone : String) : UserRec :=
  { userId := uid
    phoneNumber := phone
    fullName := none
    email := none
    status := UserStatus.pending
    isKycCompleted := false
    bitnobCustomerId := none
    bitnobWalletId := none
    bitcoinAddress := none
    failedOtpAttempts := 0
    lastFailedOtp := none
    isLocked := false
    lockedUntil := none
    sessionState := none
    sessionData := none
    lastActivity := now }

/-- Model of `CommandHandler._complete_bitnob_registration`.  On provider failure the
session is cleared and nothing else changes.  On success the three Bitnob
fields and the KYC flag are assigned; the next statement
`user.status = user.UserStatus.ACTIVE` raises `AttributeError` (the `User`
class has no `UserStatus` attribute), so control jumps to the `except`
block, which calls `user.clear_session()`; its commit persists the already
assigned fields.  Net effect: fields and flag set, `status` unchanged,
session cleared. -/
def completeBitnobRegistration (env : Env) (u : UserRec) : UserRec :=
  match env.accountData with
  | none => u.clear_session
  | some d =>
    UserRec.clear_session
      { u with bitnobCustomerId := some d.customerId
               bitnobWalletId := some d.walletId
               bitcoinAddress := some d.bitcoinAddress
               isKycCompleted := true }

/-- Model of `RegistrationHandler._create_bitnob_account`: refuses to run without a
(truthy) name and email, leaves the user untouched on provider failure, and
on success assigns the Bitnob fields, sets the KYC flag and `ACTIVE`
status, and clears the session. -/
def regCreateBitnobAccount (env : Env) (u : UserRec) : UserRec :=
  if !strTruthy u.fullName || !strTruthy u.email then u
  else
    match env.accountData with
    | none => u
    | some d =>
      UserRec.clear_session
        { u with bitnobCustomerId := some d.customerId
                 bitnobWalletId := some d.walletId
                 bitcoinAddress := some d.bitcoinAddress
                 isKycCompleted := true
                 status := UserStatus.active }

/-- The free-text cancel synonyms recognized by the registration-step
handlers (`['cancel', 'stop', 'exit', 'quit', 'no']`). -/
def isRegCancelWord (msg : String) : Bool :=
  exactAlt (normalize_text msg) ["cancel", "stop", "exit", "quit", "no"]

/-- Model of `CommandHandler._handle_name_input`: free-text cancel synonyms clear the
session; an invalid name re-prompts without any state change; a valid name
is stored and the session advances to `awaiting_email` (with empty session
data, since `update_session` defaults `data` to `None`). -/
def handleNameInput (now : Nat) (u : UserRec) (msg : String) : UserRec :=
  if isRegCancelWord msg then u.clear_session
  else
    match validate_full_name msg with
    | none => u
    | some n =>
      UserRec.update_session now "awaiting_email" none
        { u with fullName := some (String.mk n) }

/-- Model of `CommandHandler._handle_email_input`: free-text cancel synonyms clear
the session; an invalid email re-prompts without state change; a valid
email is stored and Bitnob registration is completed. -/
def handleEmailInput (env : Env) (u : UserRec) (msg : String) : UserRec :=
  if isRegCancelWord msg then u.clear_session
  else
    match validate_email msg with
    | none => u
    | some e =>
      completeBitnobRegistration env { u with email := some (String.mk e) }

/-! ## Transaction confirmation and execution
(src/handlers/commands.py, src/handlers/transaction.py) -/

/-- Combined mutable state visible to the conversation handlers: the user
row and the OTP and transaction tables. -/
structure SysState where
  user : UserRec
  otps : List OTPRec
  txs : List TxRec
  deriving Repr, DecidableEq

/-- Model of `parse_session_data(user.session_data).get('transaction_id')`. -/
def sessionTxId (u : UserRec) : Option Nat :=
  match u.sessionData with
  | some sd => sd.transactionId
  | none => none

/-- Model of `CommandHandler._execute_transaction`: reads the transaction id from the
session, marks the transaction `PROCESSING`, calls the Bitnob send
operation, and marks the transaction `FAILED` (with the provider's message)
or `COMPLETED`; the session is cleared on every path.  Note this variant
records the provider transaction id but calls `mark_completed()` without a
blockchain hash. -/
def executeTransactionCmd (env : Env) (st : SysState) : SysState :=
  match sessionTxId st.user with
  | none => { st with user := st.user.clear_session }
  | some tid =>
    match st.txs.find? (fun t => t.txId = tid) with
    | none => { st with user := st.user.clear_session }
    | some tx =>
      let tx1 := { tx with status := TransactionStatus.processing }
      if env.btcSendError then
        let tx2 := tx1.mark_failed (some (env.btcSendMsg.getD "Unknown error"))
        { st with txs := updateTx st.txs tid tx2, user := st.user.clear_session }
      else
        let tx2 :=
          if strTruthy env.btcSendTxId then
            { tx1 with bitnobTransactionId := env.btcSendTxId }
          else tx1
        let tx3 := tx2.mark_completed env.now none
        { st with txs := updateTx st.txs tid tx3, user := st.user.clear_session }

/-- Model of `CommandHandler._handle_transaction_confirmation` (the handler wired
into the live webhook path).  On `confirm` intent it issues a transaction
OTP (with no linked transaction id) and sends it; if delivery fails it
clears the session and returns an error message — the transaction row is
left untouched.  On `cancel` intent it marks the session's transaction
`CANCELLED` and clears the session.  Any other intent changes nothing. -/
def handleTransactionConfirmationCmd (env : Env) (st : SysState)
    (intent : String) : SysState :=
  if intent = "confirm" then
    let otps1 := create_otp env.cfg env.now st.otps st.user "transaction" none
      env.genOtpCode env.newOtpId env.newOtpCreatedAt
    if !env.twilioSendOk then
      { st with otps := otps1, user := st.user.clear_session }
    else
      { st with otps := otps1,
                user := st.user.update_session env.now "awaiting_otp"
                  st.user.sessionData }
  else if intent = "cancel" then
    let txs1 :=
      match st.user.sessionData with
      | none => st.txs
      | some _ =>
        match sessionTxId st.user with
        | none => st.txs
        | some tid =>
          match st.txs.find? (fun t => t.txId = tid) with
          | none => st.txs
          | some tx =>
            updateTx st.txs tid { tx with status := TransactionStatus.cancelled }
    { st with txs := txs1, user := st.user.clear_session }
  else st

/-- Model of `TransactionHandler.confirm_transaction` (src/handlers/transaction.py).
Unlike the command-handler variant, a failed OTP delivery here both clears
the session and sets the transaction's status to `FAILED`; the issued OTP
is linked to the transaction id. -/
def confirmTransaction (env : Env) (st : SysState) (confirmed : Bool) :
    SysState :=
  if st.user.sessionState ≠ some "awaiting_transaction_confirmation" then st
  else
    match sessionTxId st.user with
    | none => { st with user := st.user.clear_session }
    | some tid =>
      match st.txs.find? (fun t => t.txId = tid) with
      | none => { st with user := st.user.clear_session }
      | some tx =>
        if !confirmed then
          { st with
              txs := updateTx st.txs tid
                { tx with status := TransactionStatus.cancelled },
              user := st.user.clear_session }
        else
          let otps1 := create_otp env.cfg env.now st.otps st.user "transaction"
            (some tid) env.genOtpCode env.newOtpId env.newOtpCreatedAt
          if !env.twilioSendOk then
            { st with
                otps := otps1,
                txs := updateTx st.txs tid
                  { tx with status := TransactionStatus.failed },
                user := st.user.clear_session }
          else
            { st with otps := otps1,
                      user := st.user.update_session env.now "awaiting_otp"
                        st.user.sessionData }

/-- Model of `CommandHandler._handle_otp_input`: `cancel` intent clears the session;
a malformed code re-prompts without state change; otherwise the code is
verified through `OTPService.verify_otp` and, on success, the transaction
is executed. -/
def handleOtpInputCmd (env : Env) (st : SysState) (msg : String)
    (intent : String) : SysState :=
  if intent = "cancel" then { st with user := st.user.clear_session }
  else
    match validate_otp_code msg with
    | none => st
    | some code =>
      let vr := verify_otp env.now st.otps st.user (String.mk code) "transaction"
      if !vr.ok then { st with otps := vr.db, user := vr.user }
      else executeTransactionCmd env { st with otps := vr.db, user := vr.user }

/-- Model of `CommandHandler._handle_session_state`: routes the (sandbox-stripped)
message to the handler of the user's current session state; the intent
passed to the transaction handlers is `detect_message_intent` of the same
message, exactly as computed in `handle_message`.  For an unrecognized
state value the Python code clears the session and re-dispatches once by
intent; only its session-clearing effect is modelled here (no claim
concerns the re-dispatch, which reaches `_handle_intent`). -/
def handleSessionState (env : Env) (st : SysState) (msg : String) : SysState :=
  let intent := detect_message_intent msg
  if st.user.sessionState = some "awaiting_name" then
    { st with user := handleNameInput env.now st.user msg }
  else if st.user.sessionState = some "awaiting_email" then
    { st with user := handleEmailInput env st.user msg }
  else if st.user.sessionState = some "awaiting_transaction_confirmation" then
    handleTransactionConfirmationCmd env st intent
  else if st.user.sessionState = some "awaiting_otp" then
    handleOtpInputCmd env st msg intent
  else
    { st with user := st.user.clear_session }

/-! ## Stated properties -/

/-- The §3/§8 user invariant: a completed KYC flag forces all three Bitnob
wallet identifiers to be present. -/
def kycInv (u : UserRec) : Prop :=
  u.isKycCompleted = true →
    u.bitnobCustomerId ≠ none ∧ u.bitnobWalletId ≠ none ∧
    u.bitcoinAddress ≠ none

instance (u : UserRec) : Decidable (kycInv u) := by
  unfold kycInv; infer_instance

/-! ## Concrete sample rows used by witnesses and counterexamples -/

/-- Compact `OTPRec` builder for concrete instances. -/
def mkOtp (id uid : Nat) (code purpose : String) (used : Bool)
    (att maxAtt exp created : Nat) : OTPRec :=
  { otpId := id, userId := uid, code := code, purpose := purpose
    isUsed := used, attempts := att, maxAttempts := maxAtt
    expiresAt := exp, transactionId := none, createdAt := created }

/-- Compact `UserRec` builder: user `uid` with the given session state and
session transaction id, everything else at the row defaults. -/
def mkUser (uid : Nat) (state : Option String) (sessTx : Option Nat) : UserRec :=
  { userId := uid, phoneNumber := "+254700000000", fullName := none
    email := none, status := UserStatus.pending, isKycCompleted := false
    bitnobCustomerId := none, bitnobWalletId := none, bitcoinAddress := none
    failedOtpAttempts := 0, lastFailedOtp := none, isLocked := false
    lockedUntil := none, sessionState := state
    sessionData := state.map fun s => { state := s, transactionId := sessTx }
    lastActivity := 0 }

/-- Compact pending send-transaction builder. -/
def mkPendingTx (id uid : Nat) (ref : String) : TxRec :=
  { txId := id, userId := uid, txType := TransactionType.send
    amount := 1, recipientAddress := some "bc1qaddr", status := TransactionStatus.pending
    bitnobTransactionId := none, blockchainHash := none
    referenceNumber := ref, description := none, fee := none
    completedAt := none }

/-- A fixed environment for concrete runs: OTP delivery fails, the Bitnob
send succeeds, account creation succeeds. -/
def sampleEnv (twilioOk : Bool) : Env :=
  { now := 100, cfg := { expiryMinutes := 5, maxAttempts := 3 }
    genOtpCode := "123456", newOtpId := 7, newOtpCreatedAt := 100
    twilioSendOk := twilioOk, btcSendError := false, btcSendMsg := none
    btcSendTxId := some "btx-1"
    accountData := some { customerId := "cus-1", walletId := "wal-1"
                          bitcoinAddress := "bc1qnew", addressId := "adr-1" } }

/-! # Theorems

Shared helper lemmas come first; the claim theorems follow, one per claim,
each preceded by a doc comment naming the claim. -/

/-- The scan underlying `selectLatestUnused` only ever returns the
accumulator or an element of the list. -/
theorem foldl_newerOf_mem (l : List OTPRec) (acc : Option OTPRec)
    (o : OTPRec) (h : l.foldl newerOf acc = some o) :
    o ∈ l ∨ acc = some o := by
  induction l generalizing acc with
  | nil => exact Or.inr h
  | cons x xs ih =>
    simp only [List.foldl_cons] at h
    rcases ih _ h with h' | h'
    · exact Or.inl (List.mem_cons_of_mem _ h')
    · cases acc with
      | none =>
        simp only [newerOf] at h'
        injection h' with h''
        exact Or.inl (by rw [← h'']; exact List.mem_cons_self x xs)
      | some b =>
        simp only [newerOf] at h'
        split at h'
        · injection h' with h''
          exact Or.inl (by rw [← h'']; exact List.mem_cons_self x xs)
        · exact Or.inr h'

/-- A selected OTP is an unused row of the queried user and purpose. -/
theorem selectLatestUnused_spec {db : List OTPRec} {uid : Nat}
    {purpose : String} {o : OTPRec}
    (h : selectLatestUnused db uid purpose = some o) :
    o ∈ db ∧ o.userId = uid ∧ o.purpose = purpose ∧ o.isUsed = false := by
  unfold selectLatestUnused at h
  rcases foldl_newerOf_mem _ _ _ h with h' | h'
  · have hm := List.mem_filter.mp h'
    have hp := hm.2
    simp only [Bool.and_eq_true, decide_eq_true_eq, Bool.not_eq_true'] at hp
    exact ⟨hm.1, hp.1.1, hp.1.2, hp.2⟩
  · cases h'

/-- The row returned by `OTP.verify` has the attempt counter of the input
row incremented by one, and the same id. -/
theorem verify_row_attempts (now : Nat) (o : OTPRec) (code : String) :
    ((o.verify now code).2).attempts = o.attempts + 1 ∧
    ((o.verify now code).2).otpId = o.otpId := by
  unfold OTPRec.verify
  dsimp only
  split
  · exact ⟨rfl, rfl⟩
  · split
    · exact ⟨rfl, rfl⟩
    · exact ⟨rfl, rfl⟩

/-- C10: `OTP.verify` increments the attempt counter before checking
validity, so a call that raises the counter to `max_attempts` fails even on
a matching code, both at the row level and through
`OTPService.verify_otp`; and with the default `max_attempts = 3` a
verification can only succeed when the row had at most one prior attempt. -/
theorem otp_verify_counts_before_validity (now : Nat) (o : OTPRec)
    (code : String) :
    (o.attempts + 1 = o.maxAttempts → (o.verify now code).1 = false) ∧
    (o.maxAttempts = 3 → (o.verify now code).1 = true → o.attempts < 2) ∧
    (∀ (db : List OTPRec) (u : UserRec) (purpose : String),
      selectLatestUnused db u.userId purpose = some o →
      o.attempts + 1 = o.maxAttempts →
      (verify_otp now db u code purpose).ok = false) := by
  refine ⟨?_, ?_, ?_⟩
  · intro h
    unfold OTPRec.verify OTPRec.is_valid
    simp [← h]
  · intro h3 hok
    unfold OTPRec.verify at hok
    dsimp only at hok
    split at hok
    · simp at hok
    · rename_i hvalid
      have hval : ({ o with attempts := o.attempts + 1 } : OTPRec).is_valid now
          = true := by
        simpa using hvalid
      unfold OTPRec.is_valid at hval
      simp only [Bool.and_eq_true, decide_eq_true_eq] at hval
      omega
  · intro db u purpose hsel h
    unfold verify_otp
    rw [hsel]
    by_cases hexp : o.is_expired now
    · simp [hexp]
    · simp only [hexp, Bool.false_eq_true, if_false]
      by_cases hge : o.attempts ≥ o.maxAttempts
      · simp [hge]
      · have hfalse : (o.verify now code).1 = false := by
          unfold OTPRec.verify OTPRec.is_valid
          simp [← h]
        simp only [if_neg hge, hfalse, Bool.false_eq_true, if_false]
        split <;> rfl

/-- Witness for C10 at a concrete row: two prior attempts, cap 3, matching
code — the third submission still fails. -/
theorem otp_verify_counts_before_validity_witness :
    ((mkOtp 1 1 "123456" "transaction" false 2 3 50 0).verify 10 "123456").1
      = false :=
  (otp_verify_counts_before_validity 10
    (mkOtp 1 1 "123456" "transaction" false 2 3 50 0) "123456").1 (by decide)

/-- On the non-early path, `verify_otp` writes back exactly the row
produced by `OTP.verify` for the selected OTP. -/
theorem verify_otp_db_eq (now : Nat) (db : List OTPRec) (u : UserRec)
    (code purpose : String) (o : OTPRec)
    (hsel : selectLatestUnused db u.userId purpose = some o)
    (hexp : o.is_expired now = false)
    (hatt : o.attempts < o.maxAttempts) :
    (verify_otp now db u code purpose).db
      = updateOtp db o.otpId (o.verify now code).2 := by
  unfold verify_otp
  rw [hsel]
  simp only [hexp, Bool.false_eq_true, if_false]
  have hge : ¬ (o.attempts ≥ o.maxAttempts) := by omega
  simp only [if_neg hge]
  split
  · rfl
  · split <;> rfl

/-- Updating the selected row with an incremented copy changes exactly the
attempt counter of rows carrying its id (with distinct ids: that row
alone). -/
theorem updateOtp_attempts_map (db : List OTPRec) (o o2 : OTPRec)
    (hmem : o ∈ db) (hnodup : (db.map OTPRec.otpId).Nodup)
    (hid : o2.otpId = o.otpId) (hatt : o2.attempts = o.attempts + 1) :
    (updateOtp db o.otpId o2).map (fun x => (x.otpId, x.attempts))
      = db.map (fun x =>
          (x.otpId, if x.otpId = o.otpId then x.attempts + 1 else x.attempts)) := by
  unfold updateOtp
  rw [List.map_map]
  apply List.map_congr_left
  intro x hx
  by_cases hxo : x.otpId = o.otpId
  · have hxeq : x = o :=
      List.inj_on_of_nodup_map hnodup hx hmem (by rw [hxo])
    simp only [Function.comp_apply, if_pos hxo, hxeq, Prod.mk.injEq]
    exact ⟨hid, hatt⟩
  · simp only [Function.comp_apply, if_neg hxo]

/-- C1 counterexample: a `verify_otp` call that fails with the expired
reason leaves every attempt counter untouched, refuting that every call —
success or failure — increments the attempt counter exactly once. -/
theorem verify_otp_expired_no_increment :
    (verify_otp 20 [mkOtp 1 1 "123456" "transaction" false 0 3 10 0]
        (mkUser 1 none none) "123456" "transaction").reason
      = some "OTP has expired" ∧
    (verify_otp 20 [mkOtp 1 1 "123456" "transaction" false 0 3 10 0]
        (mkUser 1 none none) "123456" "transaction").db.map OTPRec.attempts
      = [0] := by
  decide

/-- C1 (amended): a `verify_otp` call that reaches the code comparison
(success or code mismatch) increments the attempt counter of the selected
OTP exactly once and touches no other counter; the `NotFound`, `Expired`
and `AttemptsExceeded` early exits leave the OTP table unchanged. -/
theorem verify_otp_attempt_increment (now : Nat) (db : List OTPRec)
    (u : UserRec) (code purpose : String) :
    (∀ o : OTPRec, (db.map OTPRec.otpId).Nodup →
      selectLatestUnused db u.userId purpose = some o →
      o.is_expired now = false →
      o.attempts < o.maxAttempts →
      (verify_otp now db u code purpose).db.map (fun x => (x.otpId, x.attempts))
        = db.map (fun x =>
            (x.otpId, if x.otpId = o.otpId then x.attempts + 1 else x.attempts))) ∧
    (∀ o : OTPRec,
      selectLatestUnused db u.userId purpose = some o →
      (o.is_expired now = true ∨ o.attempts ≥ o.maxAttempts) →
      (verify_otp now db u code purpose).db = db) ∧
    (selectLatestUnused db u.userId purpose = none →
      (verify_otp now db u code purpose).db = db) := by
  refine ⟨?_, ?_, ?_⟩
  · intro o hnd hsel hexp hatt
    rw [verify_otp_db_eq now db u code purpose o hsel hexp hatt]
    exact updateOtp_attempts_map db o _ (selectLatestUnused_spec hsel).1 hnd
      (verify_row_attempts now o code).2 (verify_row_attempts now o code).1
  · intro o hsel hcase
    unfold verify_otp
    rw [hsel]
    by_cases hexp : o.is_expired now
    · simp [hexp]
    · rcases hcase with hcase | hcase
      · exact absurd hcase hexp
      · simp [hexp, hcase]
  · intro hsel
    unfold verify_otp
    rw [hsel]

/-- Witness for C1 at a concrete state: a live OTP with zero attempts and a
mismatching code — after the call its counter reads exactly one. -/
theorem verify_otp_attempt_increment_witness :
    (verify_otp 10 [mkOtp 1 1 "123456" "transaction" false 0 3 50 0]
        (mkUser 1 none none) "000000" "transaction").db.map
        (fun x => (x.otpId, x.attempts))
      = [(1, 1)] := by
  have h := (verify_otp_attempt_increment 10
    [mkOtp 1 1 "123456" "transaction" false 0 3 50 0]
    (mkUser 1 none none) "000000" "transaction").1
    (mkOtp 1 1 "123456" "transaction" false 0 3 50 0)
    (by decide) (by decide) (by decide) (by decide)
  rw [h]
  decide

/-- C4 counterexample: an OTP that is both expired and out of attempts is
reported with the expired reason, not the attempts-exceeded reason, even
when the submitted code matches — refuting that every post-exhaustion
verification returns the attempts-exceeded reason. -/
theorem exhausted_expired_otp_reports_expired :
    (verify_otp 20 [mkOtp 1 1 "123456" "transaction" false 3 3 10 0]
        (mkUser 1 none none) "123456" "transaction").ok = false ∧
    (verify_otp 20 [mkOtp 1 1 "123456" "transaction" false 3 3 10 0]
        (mkUser 1 none none) "123456" "transaction").reason
      = some "OTP has expired" ∧
    (verify_otp 20 [mkOtp 1 1 "123456" "transaction" false 3 3 10 0]
        (mkUser 1 none none) "123456" "transaction").reason
      ≠ some "Maximum attempts exceeded" := by
  decide

/-- C4 (amended): across any `verify_otp` call no attempt counter ever
decreases; and once the selected OTP's counter has reached `max_attempts`
the call fails regardless of code correctness, with reason
"Maximum attempts exceeded" whenever the OTP is not also expired. -/
theorem otp_attempts_monotone_and_exhaustion (now : Nat) (db : List OTPRec)
    (u : UserRec) (code purpose : String) :
    (∀ x ∈ (verify_otp now db u code purpose).db,
      ∃ y ∈ db, y.otpId = x.otpId ∧ y.attempts ≤ x.attempts) ∧
    (∀ o : OTPRec, selectLatestUnused db u.userId purpose = some o →
      o.attempts ≥ o.maxAttempts →
      (verify_otp now db u code purpose).ok = false ∧
      (o.is_expired now = false →
        (verify_otp now db u code purpose).reason
          = some "Maximum attempts exceeded")) := by
  constructor
  · intro x hx
    cases hsel : selectLatestUnused db u.userId purpose with
    | none =>
      unfold verify_otp at hx
      rw [hsel] at hx
      exact ⟨x, hx, rfl, le_refl _⟩
    | some o =>
      by_cases hexp : o.is_expired now
      · unfold verify_otp at hx
        rw [hsel] at hx
        simp only [hexp, if_true] at hx
        exact ⟨x, hx, rfl, le_refl _⟩
      · by_cases hge : o.attempts ≥ o.maxAttempts
        · unfold verify_otp at hx
          rw [hsel] at hx
          simp only [hexp, Bool.false_eq_true, if_false, if_pos hge] at hx
          exact ⟨x, hx, rfl, le_refl _⟩
        · have hatt : o.attempts < o.maxAttempts := by omega
          have hdb := verify_otp_db_eq now db u code purpose o hsel
            (by simpa using hexp) hatt
          rw [hdb] at hx
          unfold updateOtp at hx
          rcases List.mem_map.mp hx with ⟨y, hy, hyx⟩
          by_cases hyo : y.otpId = o.otpId
          · rw [if_pos hyo] at hyx
            refine ⟨o, (selectLatestUnused_spec hsel).1, ?_, ?_⟩
            · rw [← hyx]
              exact ((verify_row_attempts now o code).2).symm
            · rw [← hyx, (verify_row_attempts now o code).1]
              omega
          · rw [if_neg hyo] at hyx
            exact ⟨y, hy, by rw [hyx], by rw [hyx]⟩
  · intro o hsel hge
    constructor
    · unfold verify_otp
      rw [hsel]
      by_cases hexp : o.is_expired now
      · simp [hexp]
      · simp [hexp, hge]
    · intro hexp
      unfold verify_otp
      rw [hsel]
      simp [hexp, hge]

/-- Witness for C4 at a concrete state: an unexpired OTP with three of
three attempts spent and a matching code still fails with the
attempts-exceeded reason. -/
theorem otp_attempts_monotone_and_exhaustion_witness :
    (verify_otp 10 [mkOtp 1 1 "123456" "transaction" false 3 3 50 0]
        (mkUser 1 none none) "123456" "transaction").ok = false ∧
    (verify_otp 10 [mkOtp 1 1 "123456" "transaction" false 3 3 50 0]
        (mkUser 1 none none) "123456" "transaction").reason
      = some "Maximum attempts exceeded" := by
  have h := (otp_attempts_monotone_and_exhaustion 10
    [mkOtp 1 1 "123456" "transaction" false 3 3 50 0]
    (mkUser 1 none none) "123456" "transaction").2
    (mkOtp 1 1 "123456" "transaction" false 3 3 50 0)
    (by decide) (by decide)
  exact ⟨h.1, h.2 (by decide)⟩

/-- C5: `create_otp` marks as used exactly the previously-unused OTPs of
the same `(user, purpose)` pair — rows of other purposes, other users, or
already-used rows keep their exact previous value — and appends the fresh
unused OTP of that user and purpose. -/
theorem create_otp_invalidates_exactly_matching (cfg : OTPServiceCfg)
    (now : Nat) (db : List OTPRec) (u : UserRec) (purpose : String)
    (txid : Option Nat) (code : String) (newId createdAt : Nat) :
    (∀ i, ∀ hi : i < db.length,
      (((db.get ⟨i, hi⟩).userId = u.userId ∧
        (db.get ⟨i, hi⟩).purpose = purpose ∧
        (db.get ⟨i, hi⟩).isUsed = false) →
        (create_otp cfg now db u purpose txid code newId createdAt)[i]?
          = some { db.get ⟨i, hi⟩ with isUsed := true }) ∧
      (¬((db.get ⟨i, hi⟩).userId = u.userId ∧
        (db.get ⟨i, hi⟩).purpose = purpose ∧
        (db.get ⟨i, hi⟩).isUsed = false) →
        (create_otp cfg now db u purpose txid code newId createdAt)[i]?
          = some (db.get ⟨i, hi⟩))) ∧
    ((create_otp cfg now db u purpose txid code newId createdAt)[db.length]?
      = some { otpId := newId, userId := u.userId, code := code,
               purpose := purpose, isUsed := false, attempts := 0,
               maxAttempts := cfg.maxAttempts,
               expiresAt := now + cfg.expiryMinutes * 60,
               transactionId := txid, createdAt := createdAt }) := by
  constructor
  · intro i hi
    have hlen : i < (db.map fun o =>
        if o.userId = u.userId && o.purpose = purpose && !o.isUsed then
          { o with isUsed := true }
        else o).length := by
      simpa using hi
    constructor
    · intro hcond
      unfold create_otp
      rw [List.getElem?_append, if_pos hlen, List.getElem?_map,
          List.getElem?_eq_getElem hi]
      have hb : (db[i].userId = u.userId && db[i].purpose = purpose &&
          !db[i].isUsed) = true := by
        have h1 : db[i].userId = u.userId := hcond.1
        have h2 : db[i].purpose = purpose := hcond.2.1
        have h3 : db[i].isUsed = false := hcond.2.2
        simp [h1, h2, h3]
      simp only [Option.map_some']
      rw [if_pos hb]
      rfl
    · intro hcond
      unfold create_otp
      rw [List.getElem?_append, if_pos hlen, List.getElem?_map,
          List.getElem?_eq_getElem hi]
      have hb : ¬((db[i].userId = u.userId && db[i].purpose = purpose &&
          !db[i].isUsed) = true) := by
        simp only [Bool.and_eq_true, decide_eq_true_eq, Bool.not_eq_true']
        intro h
        exact hcond ⟨h.1.1, h.1.2, h.2⟩
      simp only [Option.map_some']
      rw [if_neg hb]
      rfl
  · unfold create_otp
    rw [List.getElem?_append, if_neg (by simp)]
    simp

/-- Witness for C5 at a concrete table: a matching unused OTP is marked
used, a different-purpose OTP of the same user is untouched, and the fresh
OTP is appended unused. -/
theorem create_otp_invalidates_exactly_matching_witness :
    (create_otp { expiryMinutes := 5, maxAttempts := 3 } 100
        [mkOtp 1 1 "111111" "transaction" false 0 3 50 0,
         mkOtp 2 1 "222222" "registration" false 0 3 50 1]
        (mkUser 1 none none) "transaction" none "123456" 7 100)[0]?
      = some (mkOtp 1 1 "111111" "transaction" true 0 3 50 0) ∧
    (create_otp { expiryMinutes := 5, maxAttempts := 3 } 100
        [mkOtp 1 1 "111111" "transaction" false 0 3 50 0,
         mkOtp 2 1 "222222" "registration" false 0 3 50 1]
        (mkUser 1 none none) "transaction" none "123456" 7 100)[1]?
      = some (mkOtp 2 1 "222222" "registration" false 0 3 50 1) ∧
    (create_otp { expiryMinutes := 5, maxAttempts := 3 } 100
        [mkOtp 1 1 "111111" "transaction" false 0 3 50 0,
         mkOtp 2 1 "222222" "registration" false 0 3 50 1]
        (mkUser 1 none none) "transaction" none "123456" 7 100)[2]?
      = some (mkOtp 7 1 "123456" "transaction" false 0 3 400 100) := by
  have h := create_otp_invalidates_exactly_matching
    { expiryMinutes := 5, maxAttempts := 3 } 100
    [mkOtp 1 1 "111111" "transaction" false 0 3 50 0,
     mkOtp 2 1 "222222" "registration" false 0 3 50 1]
    (mkUser 1 none none) "transaction" none "123456" 7 100
  refine ⟨?_, ?_, ?_⟩
  · exact ((h.1 0 (by decide)).1 (by decide)).trans (by decide)
  · exact ((h.1 1 (by decide)).2 (by decide)).trans (by decide)
  · exact h.2.trans (by decide)

/-- The KYC invariant transfers between user rows that agree on the KYC
flag and the three Bitnob identifiers. -/
theorem kycInv_of_fields (u v : UserRec)
    (hkyc : v.isKycCompleted = u.isKycCompleted)
    (hc : v.bitnobCustomerId = u.bitnobCustomerId)
    (hw : v.bitnobWalletId = u.bitnobWalletId)
    (hb : v.bitcoinAddress = u.bitcoinAddress)
    (h : kycInv u) : kycInv v := by
  intro hk
  rw [hkyc] at hk
  rw [hc, hw, hb]
  exact h hk

/-- C3: every registration-path operation preserves the invariant that a
completed KYC flag implies all three Bitnob identifiers (customer id,
wallet id, receive address) are present: user creation, the name and email
steps, and both Bitnob account-completion handlers. -/
theorem registration_kyc_invariant (env : Env) (u : UserRec)
    (uid now : Nat) (phone msg : String) (h : kycInv u) :
    kycInv (createUser uid now phone) ∧
    kycInv (handleNameInput now u msg) ∧
    kycInv (handleEmailInput env u msg) ∧
    kycInv (completeBitnobRegistration env u) ∧
    kycInv (regCreateBitnobAccount env u) := by
  have hcomplete : ∀ v : UserRec, kycInv v →
      kycInv (completeBitnobRegistration env v) := by
    intro v hv
    unfold completeBitnobRegistration
    cases env.accountData with
    | none => exact kycInv_of_fields _ v rfl rfl rfl rfl hv
    | some d =>
      intro _
      exact ⟨Option.some_ne_none _, Option.some_ne_none _, Option.some_ne_none _⟩
  refine ⟨?_, ?_, ?_, hcomplete u h, ?_⟩
  · intro hk
    simp [createUser] at hk
  · unfold handleNameInput
    by_cases hc : isRegCancelWord msg
    · rw [if_pos hc]
      exact kycInv_of_fields _ u rfl rfl rfl rfl h
    · rw [if_neg hc]
      cases validate_full_name msg with
      | none => exact h
      | some n => exact kycInv_of_fields _ u rfl rfl rfl rfl h
  · unfold handleEmailInput
    by_cases hc : isRegCancelWord msg
    · rw [if_pos hc]
      exact kycInv_of_fields _ u rfl rfl rfl rfl h
    · rw [if_neg hc]
      cases validate_email msg with
      | none => exact h
      | some e =>
        exact hcomplete _ (kycInv_of_fields _ u rfl rfl rfl rfl h)
  · unfold regCreateBitnobAccount
    by_cases hne : !strTruthy u.fullName || !strTruthy u.email
    · rw [if_pos hne]
      exact h
    · rw [if_neg hne]
      cases env.accountData with
      | none => exact h
      | some d =>
        intro _
        exact ⟨Option.some_ne_none _, Option.some_ne_none _, Option.some_ne_none _⟩

/-- Witness for C3 at a concrete user: a fresh user satisfies the
invariant, and both account-completion handlers preserve it. -/
theorem registration_kyc_invariant_witness :
    kycInv (mkUser 1 none none) ∧
    kycInv (completeBitnobRegistration (sampleEnv false) (mkUser 1 none none)) ∧
    kycInv (regCreateBitnobAccount (sampleEnv false) (mkUser 1 none none)) :=
  ⟨by decide,
   (registration_kyc_invariant (sampleEnv false) (mkUser 1 none none) 2 0
      "+254700000001" "John Smith" (by decide)).2.2.2.1,
   (registration_kyc_invariant (sampleEnv false) (mkUser 1 none none) 2 0
      "+254700000001" "John Smith" (by decide)).2.2.2.2⟩

/-- Evaluation of `Char.ofNat` at a valid code point. -/
theorem char_toNat_ofNat (n : Nat) (h : n.isValidChar) :
    (Char.ofNat n).toNat = n := by
  unfold Char.ofNat
  rw [dif_pos h]
  rfl

/-- A character with code point at least 33 is not Python whitespace (all
whitespace code points are at most 32). -/
theorem isWs_eq_false_of_toNat (c : Char) (h : 33 ≤ c.toNat) :
    isWs c = false := by
  have k : ∀ d : Char, d.toNat ≤ 32 → ¬(c = d) := by
    intro d hd he
    rw [he] at h
    omega
  simp only [isWs, Bool.or_eq_false_iff, decide_eq_false_iff_not]
  refine ⟨⟨⟨⟨⟨k _ ?_, k _ ?_⟩, k _ ?_⟩, k _ ?_⟩, k _ ?_⟩, k _ ?_⟩ <;> decide

/-- Lower-casing preserves whitespace-ness: `str.lower()` only moves
letters, so `strip()`/`split()` see the same separators before and after
it. -/
theorem isWs_lowerChar (c : Char) : isWs (lowerChar c) = isWs c := by
  unfold lowerChar
  by_cases h : ('A' ≤ c && c ≤ 'Z') = true
  · rw [if_pos h]
    simp only [Bool.and_eq_true, decide_eq_true_eq] at h
    have h65 : 65 ≤ c.toNat := h.1
    have h90 : c.toNat ≤ 90 := h.2
    have ht : (Char.ofNat (c.toNat + 32)).toNat = c.toNat + 32 :=
      char_toNat_ofNat _ (Or.inl (by omega))
    rw [isWs_eq_false_of_toNat _ (by omega : 33 ≤ c.toNat),
        isWs_eq_false_of_toNat _ (by rw [ht]; omega)]
  · rw [if_neg h]

/-- Trimming commutes with lower-casing. -/
theorem trimWs_map_lowerChar (l : List Char) :
    trimWs (l.map lowerChar) = (trimWs l).map lowerChar := by
  have hp : (isWs ∘ lowerChar) = isWs := funext isWs_lowerChar
  unfold trimWs
  rw [List.dropWhile_map, hp, ← List.map_reverse, List.dropWhile_map, hp,
      ← List.map_reverse]

/-- Splitting a list without separators yields the singleton. -/
theorem splitOnP_no_ws (l : List Char) (hnw : ∀ c ∈ l, isWs c = false) :
    l.splitOnP isWs = [l] := by
  induction l with
  | nil => rfl
  | cons a as ih =>
    rw [List.splitOnP_cons,
        if_neg (by rw [hnw a (List.mem_cons_self a as)]; exact Bool.false_ne_true),
        ih fun c hc => hnw c (List.mem_cons_of_mem a hc)]
    rfl

/-- `str.split()` of a non-empty whitespace-free word is that word alone. -/
theorem splitWs_no_ws (l : List Char) (hne : l ≠ [])
    (hnw : ∀ c ∈ l, isWs c = false) : splitWs l = [l] := by
  unfold splitWs
  rw [splitOnP_no_ws l hnw]
  cases l with
  | nil => exact absurd rfl hne
  | cons a as => rfl

/-- A message classified as cancel matches the cancel pattern: every other
branch of `detect_message_intent` returns a different tag. -/
theorem detect_cancel_normalized (msg : String)
    (h : detect_message_intent msg = "cancel") :
    cancelMatch (normalize_text msg) = true := by
  simp only [detect_message_intent] at h
  by_cases h1 : confirmMatch (normalize_text msg)
  · rw [if_pos h1] at h
    exact absurd h (by decide)
  · rw [if_neg h1] at h
    by_cases h2 : cancelMatch (normalize_text msg)
    · exact h2
    · rw [if_neg h2] at h
      exfalso
      by_cases h3 : greetingMatch (normalize_text msg)
      · rw [if_pos h3] at h; exact absurd h (by decide)
      · rw [if_neg h3] at h
        by_cases h4 : sendMatch (normalize_text msg)
        · rw [if_pos h4] at h; exact absurd h (by decide)
        · rw [if_neg h4] at h
          by_cases h5 : balanceMatch (normalize_text msg)
          · rw [if_pos h5] at h; exact absurd h (by decide)
          · rw [if_neg h5] at h
            by_cases h6 : historyMatch (normalize_text msg)
            · rw [if_pos h6] at h; exact absurd h (by decide)
            · rw [if_neg h6] at h
              by_cases h7 : addressMatch (normalize_text msg)
              · rw [if_pos h7] at h; exact absurd h (by decide)
              · rw [if_neg h7] at h
                by_cases h8 : helpMatch (normalize_text msg)
                · rw [if_pos h8] at h; exact absurd h (by decide)
                · rw [if_neg h8] at h
                  by_cases h9 : otpShape (normalize_text msg)
                  · rw [if_pos h9] at h; exact absurd h (by decide)
                  · rw [if_neg h9] at h
                    by_cases h10 : nameShape (normalize_text msg)
                    · rw [if_pos h10] at h; exact absurd h (by decide)
                    · rw [if_neg h10] at h
                      by_cases h11 : matchEmailShape (normalize_text msg)
                      · rw [if_pos h11] at h; exact absurd h (by decide)
                      · rw [if_neg h11] at h
                        exact absurd h (by decide)

/-- A cancel-intent message outside the registration synonym list
normalizes to n, nope, or abort. -/
theorem cancel_nonsynonym (msg : String)
    (h : detect_message_intent msg = "cancel")
    (hs : isRegCancelWord msg = false) :
    normalize_text msg = ['n'] ∨ normalize_text msg = ['n', 'o', 'p', 'e'] ∨
    normalize_text msg = ['a', 'b', 'o', 'r', 't'] := by
  have hc := detect_cancel_normalized msg h
  unfold cancelMatch exactAlt at hc
  unfold isRegCancelWord exactAlt at hs
  simp only [List.any_cons, List.any_nil, Bool.or_eq_true, Bool.or_eq_false_iff,
    decide_eq_true_eq, decide_eq_false_iff_not, Bool.false_eq_true, or_false,
    and_true] at hc hs
  rcases hc with h1 | h1 | h1 | h1 | h1 | h1 | h1 | h1
  · exact absurd (h1.trans (by decide)) hs.2.2.2.2
  · exact Or.inl (h1.trans (by decide))
  · exact Or.inr (Or.inl (h1.trans (by decide)))
  · exact absurd (h1.trans (by decide)) hs.1
  · exact absurd (h1.trans (by decide)) hs.2.1
  · exact absurd (h1.trans (by decide)) hs.2.2.1
  · exact absurd (h1.trans (by decide)) hs.2.2.2.1
  · exact Or.inr (Or.inr (h1.trans (by decide)))

/-- A message normalizing to n, nope, or abort is not a valid email: the
validator lower-cases and trims exactly as `normalize_text` does, and none
of the three words contains an `@`. -/
theorem validate_email_cancelword (msg : String)
    (h : normalize_text msg = ['n'] ∨ normalize_text msg = ['n', 'o', 'p', 'e'] ∨
      normalize_text msg = ['a', 'b', 'o', 'r', 't']) :
    validate_email msg = none := by
  unfold normalize_text at h
  unfold validate_email
  rcases h with h | h | h <;> rw [h] <;> rfl

/-- A message normalizing to n, nope, or abort is not a valid full name:
the trimmed raw message is a single whitespace-free word (of length 1 for
"n"), so the two-word check fails. -/
theorem validate_full_name_cancelword (msg : String)
    (h : normalize_text msg = ['n'] ∨ normalize_text msg = ['n', 'o', 'p', 'e'] ∨
      normalize_text msg = ['a', 'b', 'o', 'r', 't']) :
    validate_full_name msg = none := by
  unfold normalize_text at h
  rw [trimWs_map_lowerChar] at h
  have hone : ∀ w : List Char,
      (trimWs msg.toList).map lowerChar = w →
      w ≠ [] → (∀ c ∈ w, isWs c = false) →
      (splitWs (trimWs msg.toList)).length < 2 := by
    intro w hw hwne hwns
    have hnw : ∀ c ∈ trimWs msg.toList, isWs c = false := by
      intro c hc
      rw [← isWs_lowerChar c]
      exact hwns _ (hw ▸ List.mem_map_of_mem lowerChar hc)
    have hne : trimWs msg.toList ≠ [] := by
      intro hnil
      rw [hnil] at hw
      exact hwne (by simpa using hw.symm)
    rw [splitWs_no_ws _ hne hnw]
    simp
  simp only [validate_full_name]
  rcases h with h | h | h
  · have hlen : (trimWs msg.toList).length = 1 := by
      have := congrArg List.length h
      simpa using this
    rw [if_pos (by omega : (trimWs msg.toList).length < 2)]
  · have hlen : (trimWs msg.toList).length = 4 := by
      have := congrArg List.length h
      simpa using this
    have hsp := hone _ h (by decide) (by decide)
    rw [if_neg (by omega), if_neg (by omega)]
    split
    · rfl
    · split
      · rfl
      · rfl
  · have hlen : (trimWs msg.toList).length = 5 := by
      have := congrArg List.length h
      simpa using this
    have hsp := hone _ h (by decide) (by decide)
    rw [if_neg (by omega), if_neg (by omega)]
    split
    · rfl
    · split
      · rfl
      · rfl

/-- C7 counterexample: in state `awaiting_name` the message "abort" carries
the cancel intent, yet the session is not cleared — the name handler only
recognizes its own literal synonym list and ignores the detected intent, so
cancel intent does not abort from every session state. -/
theorem abort_cancel_intent_not_honored_in_awaiting_name :
    detect_message_intent "abort" = "cancel" ∧
    (handleSessionState (sampleEnv true)
        { user := mkUser 1 (some "awaiting_name") none, otps := [], txs := [] }
        "abort").user.sessionState = some "awaiting_name" := by
  decide

/-- C7 (amended): cancel intent aborts and clears the session from the
`awaiting_transaction_confirmation` and `awaiting_otp` states; the
registration-step handlers ignore the detected intent and clear the
session exactly on the literal synonyms cancel/stop/exit/quit/no, so a
cancel-intent message outside that list (one normalizing to n, nope or
abort) leaves both `awaiting_name` and `awaiting_email` unchanged. -/
theorem cancel_aborts_session_states (env : Env) (st : SysState)
    (msg : String) :
    (st.user.sessionState = some "awaiting_transaction_confirmation" →
      detect_message_intent msg = "cancel" →
      (handleSessionState env st msg).user.sessionState = none) ∧
    (st.user.sessionState = some "awaiting_otp" →
      detect_message_intent msg = "cancel" →
      (handleSessionState env st msg).user.sessionState = none) ∧
    (st.user.sessionState = some "awaiting_name" →
      ((handleSessionState env st msg).user.sessionState = none ↔
        isRegCancelWord msg = true)) ∧
    (st.user.sessionState = some "awaiting_email" →
      isRegCancelWord msg = true →
      (handleSessionState env st msg).user.sessionState = none) ∧
    (st.user.sessionState = some "awaiting_name" →
      detect_message_intent msg = "cancel" →
      isRegCancelWord msg = false →
      (handleSessionState env st msg).user.sessionState
        = some "awaiting_name") ∧
    (st.user.sessionState = some "awaiting_email" →
      detect_message_intent msg = "cancel" →
      isRegCancelWord msg = false →
      (handleSessionState env st msg).user.sessionState
        = some "awaiting_email") := by
  refine ⟨?_, ?_, ?_, ?_, ?_, ?_⟩
  · intro hs hint
    unfold handleSessionState
    rw [hs, hint]
    rw [if_neg (by decide), if_neg (by decide), if_pos rfl]
    unfold handleTransactionConfirmationCmd
    rw [if_neg (by decide), if_pos rfl]
    rfl
  · intro hs hint
    unfold handleSessionState
    rw [hs, hint]
    rw [if_neg (by decide), if_neg (by decide), if_neg (by decide), if_pos rfl]
    unfold handleOtpInputCmd
    rw [if_pos rfl]
    rfl
  · intro hs
    unfold handleSessionState
    rw [hs, if_pos rfl]
    show (handleNameInput env.now st.user msg).sessionState = none ↔ _
    unfold handleNameInput
    by_cases hc : isRegCancelWord msg
    · simp [hc, UserRec.clear_session]
    · rw [if_neg hc]
      cases validate_full_name msg with
      | none =>
        simp only [hs]
        simp [hc]
      | some n =>
        simp [UserRec.update_session, hc]
  · intro hs hc
    unfold handleSessionState
    rw [hs]
    rw [if_neg (by decide), if_pos rfl]
    show (handleEmailInput env st.user msg).sessionState = none
    unfold handleEmailInput
    rw [if_pos hc]
    rfl
  · intro hs hint hsyn
    unfold handleSessionState
    rw [hs, if_pos rfl]
    show (handleNameInput env.now st.user msg).sessionState = some "awaiting_name"
    unfold handleNameInput
    rw [if_neg (by rw [hsyn]; exact Bool.false_ne_true),
        validate_full_name_cancelword msg (cancel_nonsynonym msg hint hsyn)]
    exact hs
  · intro hs hint hsyn
    unfold handleSessionState
    rw [hs]
    rw [if_neg (by decide), if_pos rfl]
    show (handleEmailInput env st.user msg).sessionState = some "awaiting_email"
    unfold handleEmailInput
    rw [if_neg (by rw [hsyn]; exact Bool.false_ne_true),
        validate_email_cancelword msg (cancel_nonsynonym msg hint hsyn)]
    exact hs

/-- Witness for C7 at concrete states: "no" clears the session from the
confirmation, OTP, name and email states, and the cancel-intent
non-synonym "abort" leaves both registration states set. -/
theorem cancel_aborts_session_states_witness :
    (handleSessionState (sampleEnv true)
        { user := mkUser 1 (some "awaiting_transaction_confirmation") (some 1),
          otps := [], txs := [] } "no").user.sessionState = none ∧
    (handleSessionState (sampleEnv true)
        { user := mkUser 1 (some "awaiting_otp") (some 1),
          otps := [], txs := [] } "no").user.sessionState = none ∧
    (handleSessionState (sampleEnv true)
        { user := mkUser 1 (some "awaiting_name") none,
          otps := [], txs := [] } "no").user.sessionState = none ∧
    (handleSessionState (sampleEnv true)
        { user := mkUser 1 (some "awaiting_email") none,
          otps := [], txs := [] } "no").user.sessionState = none ∧
    (handleSessionState (sampleEnv true)
        { user := mkUser 1 (some "awaiting_name") none,
          otps := [], txs := [] } "abort").user.sessionState
      = some "awaiting_name" ∧
    (handleSessionState (sampleEnv true)
        { user := mkUser 1 (some "awaiting_email") none,
          otps := [], txs := [] } "abort").user.sessionState
      = some "awaiting_email" := by
  refine ⟨?_, ?_, ?_, ?_, ?_, ?_⟩
  · exact (cancel_aborts_session_states (sampleEnv true)
      { user := mkUser 1 (some "awaiting_transaction_confirmation") (some 1),
        otps := [], txs := [] } "no").1 (by decide) (by decide)
  · exact (cancel_aborts_session_states (sampleEnv true)
      { user := mkUser 1 (some "awaiting_otp") (some 1),
        otps := [], txs := [] } "no").2.1 (by decide) (by decide)
  · exact ((cancel_aborts_session_states (sampleEnv true)
      { user := mkUser 1 (some "awaiting_name") none,
        otps := [], txs := [] } "no").2.2.1 (by decide)).mpr (by decide)
  · exact (cancel_aborts_session_states (sampleEnv true)
      { user := mkUser 1 (some "awaiting_email") none,
        otps := [], txs := [] } "no").2.2.2.1 (by decide) (by decide)
  · exact (cancel_aborts_session_states (sampleEnv true)
      { user := mkUser 1 (some "awaiting_name") none,
        otps := [], txs := [] } "abort").2.2.2.2.1 (by decide) (by decide)
      (by decide)
  · exact (cancel_aborts_session_states (sampleEnv true)
      { user := mkUser 1 (some "awaiting_email") none,
        otps := [], txs := [] } "abort").2.2.2.2.2 (by decide) (by decide)
      (by decide)

/-- C6: when the user confirms and OTP delivery fails, the live
command-handler path (`_handle_transaction_confirmation`, reached from the
webhook through `handle_message`) clears the session but leaves the
transaction `PENDING`, while the parallel
`TransactionHandler.confirm_transaction` marks it `FAILED` as the spec
requires — exhibiting the divergence at a concrete state. -/
theorem otp_delivery_failure_divergence :
    ((handleSessionState (sampleEnv false)
        { user := mkUser 1 (some "awaiting_transaction_confirmation") (some 1),
          otps := [], txs := [mkPendingTx 1 1 "TXN-1"] }
        "yes").user.sessionState = none ∧
     (handleSessionState (sampleEnv false)
        { user := mkUser 1 (some "awaiting_transaction_confirmation") (some 1),
          otps := [], txs := [mkPendingTx 1 1 "TXN-1"] }
        "yes").txs.map TxRec.status = [TransactionStatus.pending]) ∧
    ((confirmTransaction (sampleEnv false)
        { user := mkUser 1 (some "awaiting_transaction_confirmation") (some 1),
          otps := [], txs := [mkPendingTx 1 1 "TXN-1"] }
        true).user.sessionState = none ∧
     (confirmTransaction (sampleEnv false)
        { user := mkUser 1 (some "awaiting_transaction_confirmation") (some 1),
          otps := [], txs := [mkPendingTx 1 1 "TXN-1"] }
        true).txs.map TxRec.status = [TransactionStatus.failed]) := by
  decide

/-- C2: the webhook handlers are not idempotent — delivering the same
`wallet.credited` event twice inserts two receive rows for the same
blockchain hash, and a `transaction.completed` delivery overwrites a
transaction already in the terminal `FAILED` state with `COMPLETED`. -/
theorem wallet_credited_webhook_not_idempotent :
    ((handleWalletCreditedWebhook
        [{ mkUser 1 none none with bitnobWalletId := some "W" }]
        (handleWalletCreditedWebhook
          [{ mkUser 1 none none with bitnobWalletId := some "W" }]
          [] (some "W") 1 (some "H") 1 "RCV-1")
        (some "W") 1 (some "H") 2 "RCV-2").filter (fun t =>
          t.txType = TransactionType.receive &&
          t.blockchainHash = some "H")).length = 2 ∧
    (handleTransactionCompletedWebhook 5
        [{ { mkPendingTx 1 1 "TXN-1" with status := TransactionStatus.failed }
            with bitnobTransactionId := some "B" }]
        (some "B") (some "H2")).map TxRec.status
      = [TransactionStatus.completed] := by
  decide

/-- C8: the classifier resolves "no" to cancel as claimed, but the second
greeting pattern matches the substring "hi" inside the single word
"history", so the message "history" classifies as greeting rather than
history — violating the word-boundary part of the claim (and the repo's
own test expectations). -/
theorem intent_history_misclassified :
    detect_message_intent "no" = "cancel" ∧
    detect_message_intent "history" = "greeting" ∧
    detect_message_intent "history" ≠ "history" := by
  decide

end SatsPay
